import Mathlib

/-!
Shallow embedding of the Mantella SKSE launcher plugin (src/plugin.cpp).

The plugin supervises an external companion process, `Mantella.exe`:
on the host's data-loaded event (and on an explicit Papyrus call-in) it
resolves a temp-storage directory, enumerates running `Mantella.exe`
instances, terminates active ones, and spawns a fresh instance.

The embedding models the OS as explicit inputs:
  * the process table is a `List ProcEntry` (a toolhelp snapshot);
  * fallible OS calls (`SHGetKnownFolderPath`, `GetTempPath`,
    `create_directories`, `SetEnvironmentVariable`, `TerminateProcess`,
    `CreateProcess`) are driven by oracle fields of `WinEnv`/`LaunchEnv`;
  * every observable side effect is recorded in an `Effect` trace, and the
    process-table state is threaded through the supervision pass.
`WaitForSingleObject(h, INFINITE)` on a process handle returns only once the
process has exited, so in the embedding the wait step marks the process as
exited: the model describes passes that run to completion.
-/

namespace Mantella

/-- One row of the toolhelp process snapshot, together with the OS facts the
plugin can query about it: its executable name (`szExeFile`), its pid, whether
`GetExitCodeProcess` would report `STILL_ACTIVE`, and whether `OpenProcess`
with `PROCESS_QUERY_INFORMATION | PROCESS_TERMINATE` succeeds on it. -/
structure ProcEntry where
  name : String
  pid : Nat
  active : Bool
  openable : Bool
  deriving Repr, DecidableEq

/-- Observable side effects of the plugin, in program order.
`wait pid t` is `WaitForSingleObject` on the process's handle, `t = none`
meaning `INFINITE`.  `spawn` records the `CreateProcess` call with its
command line, working directory, creation flags and `wShowWindow` value. -/
inductive Effect where
  | createDir (path : String)
  | setEnv (var : String) (val : String)
  | terminate (pid : Nat)
  | wait (pid : Nat) (timeoutMs : Option Nat)
  | closeHandle (h : Option Nat)
  | closeThreadHandle
  | spawn (cmdLine : String) (workDir : String) (creationFlags : Nat) (showWindow : Nat)
  | setConsoleTitle (title : String)
  | log (msg : String)
  deriving Repr, DecidableEq

def Effect.isSpawn : Effect → Bool
  | .spawn _ _ _ _ => true
  | _ => false

def Effect.isTerminate : Effect → Bool
  | .terminate _ => true
  | _ => false

def Effect.isSetEnv : Effect → Bool
  | .setEnv _ _ => true
  | _ => false

def Effect.isCreateDir : Effect → Bool
  | .createDir _ => true
  | _ => false

def Effect.isLog : Effect → Bool
  | .log _ => true
  | _ => false

/-- Oracle for the OS calls made by `SetEnvironmentTempPath`:
`documentsPath` is the `SHGetKnownFolderPath(FOLDERID_Documents)` result
(`none` = failure); `createDirOK p` says whether
`std::filesystem::create_directories(p)` succeeds; `tempPath` is the
`GetTempPath` result (`none` = failure; Windows returns it with a trailing
backslash); `setEnvOK v` says whether `SetEnvironmentVariable(v, ·)`
succeeds. -/
structure WinEnv where
  documentsPath : Option String
  createDirOK : String → Bool
  tempPath : Option String
  setEnvOK : String → Bool

/-- `wcsstr(hay, needle) != nullptr`: substring occurrence test on the
character list. -/
def hasSubstr (needle : List Char) : List Char → Bool
  | [] => needle.isPrefixOf ([] : List Char)
  | c :: t => needle.isPrefixOf (c :: t) || hasSubstr needle t

/-- The cloud-sync marker check `wcsstr(documentsPath, L"OneDrive") != nullptr`. -/
def containsOneDrive (s : String) : Bool :=
  hasSubstr "OneDrive".data s.data

/-- The suffix appended to the documents folder to form the preferred
temp-storage path (`L"\\My Games\\Mantella\\data\\tmp"`). -/
def preferredSubdir : String := "\\My Games\\Mantella\\data\\tmp"

/-- Final step of `SetEnvironmentTempPath`: `SetEnvironmentVariable` for
`TEMP`, then (only if that succeeded, by `||` short-circuit) for `TMP`.
A successful call mutates the variable and is recorded as a `setEnv` effect;
a failed call mutates nothing. -/
def setTempVars (env : WinEnv) (p : String) (tr : List Effect) : Bool × List Effect :=
  if env.setEnvOK "TEMP" then
    if env.setEnvOK "TMP" then
      (true, tr ++ [Effect.setEnv "TEMP" p, Effect.setEnv "TMP" p])
    else
      (false, tr ++ [Effect.setEnv "TEMP" p,
        Effect.log "Failed to set TEMP/TMP environment variables."])
  else
    (false, tr ++ [Effect.log "Failed to set TEMP/TMP environment variables."])

/-- The `if (useSecondary)` fallback block of `SetEnvironmentTempPath`:
`GetTempPath`, append `"Mantella"`, `create_directories`, then the
environment-variable step. -/
def fallbackTempDir (env : WinEnv) (tr : List Effect) : Bool × List Effect :=
  match env.tempPath with
  | some t =>
    if env.createDirOK (t ++ "Mantella") then
      setTempVars env (t ++ "Mantella") (tr ++ [Effect.createDir (t ++ "Mantella")])
    else
      (false, tr ++ [Effect.createDir (t ++ "Mantella"),
        Effect.log "Failed to create fallback directory."])
  | none => (false, tr ++ [Effect.log "Failed to get system temporary directory."])

/-- `SetEnvironmentTempPath` (src/plugin.cpp:22-81): resolve the documents
folder; unless its path contains `"OneDrive"`, try to create
`<Documents>\My Games\Mantella\data\tmp`; on marker hit or creation failure
fall back to `<GetTempPath()>Mantella`; finally set `TEMP`/`TMP` to the
chosen path.  Returns the success flag and the effect trace. -/
def SetEnvironmentTempPath (env : WinEnv) : Bool × List Effect :=
  match env.documentsPath with
  | none => (false, [Effect.log "Failed to get Documents folder path."])
  | some docs =>
    if containsOneDrive docs then
      fallbackTempDir env []
    else
      if env.createDirOK (docs ++ preferredSubdir) then
        setTempVars env (docs ++ preferredSubdir) [Effect.createDir (docs ++ preferredSubdir)]
      else
        fallbackTempDir env [Effect.createDir (docs ++ preferredSubdir),
          Effect.log "Failed to create directory path.",
          Effect.log "Falling back to system temporary directory."]

/-- Windows paths are modelled as component lists; `\\` joins them back. -/
def joinBS (cs : List String) : String := String.intercalate "\\" cs

/-- `std::filesystem::path::parent_path()`: drop the last component. -/
def parentPath (p : List String) : List String := p.dropLast

/-- `GetModuleDirectoryBase(levels_up)` (src/plugin.cpp:85-111): the module's
own file path with `parent_path()` applied `levels_up` times. -/
def GetModuleDirectoryBase (modulePath : List String) : Nat → List String
  | 0 => modulePath
  | n + 1 => parentPath (GetModuleDirectoryBase modulePath n)

/-- The companion executable's filename. -/
def mantellaExe : String := "Mantella.exe"

/-- `stricmp(a, b) == 0`: case-insensitive character-by-character equality. -/
def striEq (a b : String) : Bool :=
  a.data.map Char.toLower == b.data.map Char.toLower

/-- `LocateExistingMantellaProcesses` (src/plugin.cpp:134-153): walk the
snapshot with `Process32First` / `Process32Next` and collect
`OpenProcess(PROCESS_QUERY_INFORMATION | PROCESS_TERMINATE)` results for
entries whose name matches `"Mantella.exe"` case-insensitively.
`Process32First` only tests that the snapshot is non-empty; the loop body
runs on `Process32Next` results, so the snapshot's first entry is never
examined.  A failed `OpenProcess` contributes `none` (a NULL handle). -/
def LocateExistingMantellaProcesses (s : List ProcEntry) : List (Option Nat) :=
  match s with
  | [] => []
  | _first :: rest =>
    (rest.filter (fun e => striEq e.name mantellaExe)).map
      (fun e => if e.openable then some e.pid else none)

/-- `GetExitCodeProcess(h, &c) && c == STILL_ACTIVE` for the process a handle
with pid `pid` refers to: some snapshot row with that pid is still active. -/
def isActive (s : List ProcEntry) (pid : Nat) : Bool :=
  s.any (fun e => e.pid == pid && e.active)

/-- The process-table consequence of process `pid` exiting. -/
def markExited (s : List ProcEntry) (pid : Nat) : List ProcEntry :=
  s.map (fun e => if e.pid == pid then { e with active := false } else e)

/-- The terminate-existing-instances loop of `LaunchMantellaExe`
(src/plugin.cpp:186-204), threading the process table: NULL handles are
skipped entirely; for a live handle, if the process is still active it is
terminated (`TerminateProcess` failure is logged but not fatal), waited on
with `WaitForSingleObject(h, INFINITE)` (whose return means the process has
exited), logged and closed; an already-exited process's handle is just
closed. -/
def handleProcesses (tOK : Nat → Bool) : List ProcEntry → List (Option Nat) →
    List ProcEntry × List Effect
  | s, [] => (s, [])
  | s, none :: rest => handleProcesses tOK s rest
  | s, some pid :: rest =>
    if isActive s pid then
      let s2 := markExited (if tOK pid then markExited s pid else s) pid
      let r := handleProcesses tOK s2 rest
      (r.1, Effect.terminate pid ::
        ((if tOK pid then ([] : List Effect)
          else [Effect.log "Failed to terminate existing Mantella.exe process."]) ++
         (Effect.wait pid none ::
          Effect.log "Existing Mantella.exe process terminated." ::
          Effect.closeHandle (some pid) :: r.2)))
    else
      let r := handleProcesses tOK s rest
      (r.1, Effect.closeHandle (some pid) :: r.2)

/-- `CREATE_NEW_CONSOLE`. -/
def CREATE_NEW_CONSOLE : Nat := 16

/-- `SW_SHOWMINNOACTIVE`. -/
def SW_SHOWMINNOACTIVE : Nat := 7

/-- Oracle inputs of a whole launch pass: the `WinEnv` for the resolver, this
module's own binary path (components of the DLL file path reported by
`GetModuleFileName`), whether `TerminateProcess` succeeds per pid, whether
`CreateProcess` succeeds, and the pid the OS gives the spawned process. -/
structure LaunchEnv where
  winEnv : WinEnv
  modulePath : List String
  terminateOK : Nat → Bool
  createProcessOK : Bool
  newPid : Nat

/-- `GetCurrentModuleDirectory()` = `GetModuleDirectoryBase(1)`. -/
def moduleDirOf (env : LaunchEnv) : String :=
  joinBS (GetModuleDirectoryBase env.modulePath 1)

/-- The full path to the companion executable built by `LaunchMantellaExe`:
`moduleDir + L"\\MantellaSoftware\\Mantella.exe"`. -/
def exePathOf (env : LaunchEnv) : String :=
  moduleDirOf env ++ "\\MantellaSoftware\\Mantella.exe"

/-- The freshly spawned companion instance as a process-table row. -/
def newInstance (env : LaunchEnv) : ProcEntry :=
  { name := mantellaExe, pid := env.newPid, active := true, openable := true }

/-- `LaunchMantellaExe` (src/plugin.cpp:158-221): resolve the temp path
(failure aborts the pass before anything else), log the attempt, enumerate
existing instances, run the terminate loop, then call `CreateProcess` with
`exePath + L" --integrated"` as command line, the module directory as working
directory, `CREATE_NEW_CONSOLE` and `SW_SHOWMINNOACTIVE`; on success set the
console title and close the thread handle, on failure log and report failure.
Returns (success, effect trace, resulting process table). -/
def LaunchMantellaExe (env : LaunchEnv) (s : List ProcEntry) :
    Bool × List Effect × List ProcEntry :=
  let r0 := SetEnvironmentTempPath env.winEnv
  if r0.1 then
    let hp := handleProcesses env.terminateOK s (LocateExistingMantellaProcesses s)
    let trPre := r0.2 ++ Effect.log ("Attempting to launch: " ++ exePathOf env) :: hp.2 ++
      [Effect.spawn (exePathOf env ++ " --integrated") (moduleDirOf env)
        CREATE_NEW_CONSOLE SW_SHOWMINNOACTIVE]
    if env.createProcessOK then
      (true, trPre ++ [Effect.setConsoleTitle "Mantella", Effect.closeThreadHandle],
        hp.1 ++ [newInstance env])
    else
      (false, trPre ++ [Effect.log "Failed to launch Mantella.exe. CreateProcess error."], hp.1)
  else
    (false, r0.2, s)

/-- The data-loaded listener registered in `SKSEPluginLoad`
(src/plugin.cpp:241-257): enumerate; if nothing was found run
`LaunchMantellaExe` and log its outcome; otherwise close every acquired
handle (`CloseHandle` is called on NULL entries too) and log that an
instance is already running. -/
def OnDataLoaded (env : LaunchEnv) (s : List ProcEntry) : List Effect × List ProcEntry :=
  let existing := LocateExistingMantellaProcesses s
  if existing.length == 0 then
    let r := LaunchMantellaExe env s
    if r.1 then
      (r.2.1 ++ [Effect.log "Mantella.exe launched successfully!"], r.2.2)
    else
      (r.2.1 ++ [Effect.log "Failed to launch Mantella.exe."], r.2.2)
  else
    (existing.map Effect.closeHandle ++
      [Effect.log "Found running instance of Mantella.exe. Not starting a new one. You can still restart it from the MCM."],
      s)

/-! ### Helper lemmas -/

/-- Effects that `SetEnvironmentTempPath` may emit. -/
def Effect.isEnvPhase : Effect → Bool
  | .createDir _ => true
  | .setEnv _ _ => true
  | .log _ => true
  | _ => false

lemma setTempVars_envPhase (env : WinEnv) (p : String) (tr : List Effect)
    (htr : ∀ eff ∈ tr, eff.isEnvPhase = true) :
    ∀ eff ∈ (setTempVars env p tr).2, eff.isEnvPhase = true := by
  intro eff heff
  unfold setTempVars at heff
  split at heff
  · split at heff
    · simp at heff
      rcases heff with h | h | h
      · exact htr _ h
      · simp [h, Effect.isEnvPhase]
      · simp [h, Effect.isEnvPhase]
    · simp at heff
      rcases heff with h | h | h
      · exact htr _ h
      · simp [h, Effect.isEnvPhase]
      · simp [h, Effect.isEnvPhase]
  · simp at heff
    rcases heff with h | h
    · exact htr _ h
    · simp [h, Effect.isEnvPhase]

lemma fallbackTempDir_envPhase (env : WinEnv) (tr : List Effect)
    (htr : ∀ eff ∈ tr, eff.isEnvPhase = true) :
    ∀ eff ∈ (fallbackTempDir env tr).2, eff.isEnvPhase = true := by
  intro eff heff
  unfold fallbackTempDir at heff
  split at heff
  · split at heff
    · refine setTempVars_envPhase env _ _ ?_ _ heff
      intro x hx
      rcases List.mem_append.1 hx with h | h
      · exact htr _ h
      · simp at h; simp [h, Effect.isEnvPhase]
    · simp at heff
      rcases heff with h | h | h
      · exact htr _ h
      · simp [h, Effect.isEnvPhase]
      · simp [h, Effect.isEnvPhase]
  · simp at heff
    rcases heff with h | h
    · exact htr _ h
    · simp [h, Effect.isEnvPhase]

lemma setEnvTempPath_envPhase (env : WinEnv) :
    ∀ eff ∈ (SetEnvironmentTempPath env).2, eff.isEnvPhase = true := by
  intro eff heff
  unfold SetEnvironmentTempPath at heff
  split at heff
  · simp at heff; simp [heff, Effect.isEnvPhase]
  · split at heff
    · exact fallbackTempDir_envPhase _ _ (by simp) _ heff
    · split at heff
      · refine setTempVars_envPhase _ _ _ ?_ _ heff
        intro x hx; simp at hx; simp [hx, Effect.isEnvPhase]
      · refine fallbackTempDir_envPhase _ _ ?_ _ heff
        intro x hx; simp at hx
        rcases hx with h | h | h <;> simp [h, Effect.isEnvPhase]

lemma envPhase_not_spawn {eff : Effect} (h : eff.isEnvPhase = true) :
    eff.isSpawn = false := by
  cases eff <;> simp_all [Effect.isEnvPhase, Effect.isSpawn]

lemma envPhase_not_terminate {eff : Effect} (h : eff.isEnvPhase = true) :
    eff.isTerminate = false := by
  cases eff <;> simp_all [Effect.isEnvPhase, Effect.isTerminate]

lemma hp_nil (tOK : Nat → Bool) (s : List ProcEntry) :
    handleProcesses tOK s [] = (s, []) := rfl

lemma hp_none (tOK : Nat → Bool) (s : List ProcEntry) (rest : List (Option Nat)) :
    handleProcesses tOK s (none :: rest) = handleProcesses tOK s rest := rfl

lemma hp_cons_active (tOK : Nat → Bool) (s : List ProcEntry) (pid : Nat)
    (rest : List (Option Nat)) (h : isActive s pid = true) :
    handleProcesses tOK s (some pid :: rest) =
      ((handleProcesses tOK (markExited (if tOK pid then markExited s pid else s) pid) rest).1,
       Effect.terminate pid ::
         ((if tOK pid then ([] : List Effect)
           else [Effect.log "Failed to terminate existing Mantella.exe process."]) ++
          (Effect.wait pid none ::
           Effect.log "Existing Mantella.exe process terminated." ::
           Effect.closeHandle (some pid) ::
           (handleProcesses tOK (markExited (if tOK pid then markExited s pid else s) pid)
             rest).2))) := by
  rw [handleProcesses, if_pos h]

lemma hp_cons_inactive (tOK : Nat → Bool) (s : List ProcEntry) (pid : Nat)
    (rest : List (Option Nat)) (h : isActive s pid = false) :
    handleProcesses tOK s (some pid :: rest) =
      ((handleProcesses tOK s rest).1,
       Effect.closeHandle (some pid) :: (handleProcesses tOK s rest).2) := by
  rw [handleProcesses, if_neg (by simp [h])]

lemma hp_spawnFree (tOK : Nat → Bool) (hs : List (Option Nat)) :
    ∀ (s : List ProcEntry), ∀ eff ∈ (handleProcesses tOK s hs).2, eff.isSpawn = false := by
  induction hs with
  | nil => intro s eff heff; simp [hp_nil] at heff
  | cons h rest ih =>
    intro s eff heff
    match h with
    | none => exact ih s eff (by rwa [hp_none] at heff)
    | some pid =>
      by_cases ha : isActive s pid = true
      · rw [hp_cons_active tOK s pid rest ha] at heff
        simp only [List.mem_cons, List.mem_append] at heff
        rcases heff with h1 | h1
        · simp [h1, Effect.isSpawn]
        rcases h1 with h1 | h1
        · split at h1
          · simp at h1
          · simp at h1; simp [h1, Effect.isSpawn]
        rcases h1 with h1 | h1 | h1 | h1
        · simp [h1, Effect.isSpawn]
        · simp [h1, Effect.isSpawn]
        · simp [h1, Effect.isSpawn]
        · exact ih _ eff h1
      · rw [hp_cons_inactive tOK s pid rest (by simpa using ha)] at heff
        simp only [List.mem_cons] at heff
        rcases heff with h1 | h1
        · simp [h1, Effect.isSpawn]
        · exact ih _ eff h1

lemma markExited_cons (e : ProcEntry) (t : List ProcEntry) (pid : Nat) :
    markExited (e :: t) pid =
      (if e.pid == pid then { e with active := false } else e) :: markExited t pid := rfl

lemma isActive_cons (e : ProcEntry) (t : List ProcEntry) (pid : Nat) :
    isActive (e :: t) pid = ((e.pid == pid && e.active) || isActive t pid) := rfl

lemma isActive_markExited_self (s : List ProcEntry) (pid : Nat) :
    isActive (markExited s pid) pid = false := by
  induction s with
  | nil => rfl
  | cons e t ih =>
    rw [markExited_cons, isActive_cons, ih]
    by_cases h : e.pid = pid
    · simp [h]
    · simp [h]

lemma isActive_markExited_of (s : List ProcEntry) (p pid : Nat)
    (h : isActive s pid = false) : isActive (markExited s p) pid = false := by
  induction s with
  | nil => rfl
  | cons e t ih =>
    rw [isActive_cons] at h
    rcases Bool.or_eq_false_iff.1 h with ⟨h1, h2⟩
    rw [markExited_cons, isActive_cons, ih h2]
    by_cases hp : e.pid = p
    · simp [hp]
    · simp [hp, h1]

lemma hp_mono (tOK : Nat → Bool) (hs : List (Option Nat)) :
    ∀ (s : List ProcEntry) (pid : Nat), isActive s pid = false →
      isActive (handleProcesses tOK s hs).1 pid = false := by
  induction hs with
  | nil => intro s pid h; simpa [hp_nil] using h
  | cons hd rest ih =>
    intro s pid h
    match hd with
    | none => rw [hp_none]; exact ih s pid h
    | some q =>
      by_cases ha : isActive s q = true
      · rw [hp_cons_active tOK s q rest ha]
        exact ih _ pid (isActive_markExited_of _ _ _ (by
          split <;> [exact isActive_markExited_of _ _ _ h; exact h]))
      · rw [hp_cons_inactive tOK s q rest (by simpa using ha)]
        exact ih s pid h

lemma hp_clears (tOK : Nat → Bool) (hs : List (Option Nat)) :
    ∀ (s : List ProcEntry) (pid : Nat), some pid ∈ hs →
      isActive (handleProcesses tOK s hs).1 pid = false := by
  induction hs with
  | nil => intro s pid h; simp at h
  | cons hd rest ih =>
    intro s pid h
    rcases List.mem_cons.1 h with he | hrest
    · cases he
      by_cases ha : isActive s pid = true
      · rw [hp_cons_active tOK s pid rest ha]
        exact hp_mono tOK rest _ pid (isActive_markExited_self _ pid)
      · rw [hp_cons_inactive tOK s pid rest (by simpa using ha)]
        exact hp_mono tOK rest s pid (by simpa using ha)
    · match hd with
      | none => rw [hp_none]; exact ih s pid hrest
      | some q =>
        by_cases ha : isActive s q = true
        · rw [hp_cons_active tOK s q rest ha]; exact ih _ pid hrest
        · rw [hp_cons_inactive tOK s q rest (by simpa using ha)]; exact ih s pid hrest

/-- `e'` is the possibly-deactivated remnant of snapshot row `e`. -/
def remnantOf (e' e : ProcEntry) : Prop :=
  e'.pid = e.pid ∧ e'.name = e.name ∧ e'.openable = e.openable ∧
    (e'.active = true → e.active = true)

lemma remnantOf_refl (e : ProcEntry) : remnantOf e e :=
  ⟨rfl, rfl, rfl, fun h => h⟩

lemma remnantOf_trans {a b c : ProcEntry} (h1 : remnantOf a b) (h2 : remnantOf b c) :
    remnantOf a c :=
  ⟨h1.1.trans h2.1, h1.2.1.trans h2.2.1, h1.2.2.1.trans h2.2.2.1,
   fun h => h2.2.2.2 (h1.2.2.2 h)⟩

lemma mem_markExited (s : List ProcEntry) (pid : Nat) (e' : ProcEntry)
    (h : e' ∈ markExited s pid) : ∃ e ∈ s, remnantOf e' e := by
  rcases List.mem_map.1 h with ⟨e, he, rfl⟩
  refine ⟨e, he, ?_⟩
  by_cases hp : e.pid = pid <;> simp [hp, remnantOf]

lemma hp_remnant (tOK : Nat → Bool) (hs : List (Option Nat)) :
    ∀ (s : List ProcEntry), ∀ e' ∈ (handleProcesses tOK s hs).1, ∃ e ∈ s, remnantOf e' e := by
  induction hs with
  | nil => intro s e' h; rw [hp_nil] at h; exact ⟨e', h, remnantOf_refl e'⟩
  | cons hd rest ih =>
    intro s e' h
    match hd with
    | none => rw [hp_none] at h; exact ih s e' h
    | some pid =>
      by_cases ha : isActive s pid = true
      · rw [hp_cons_active tOK s pid rest ha] at h
        rcases ih _ e' h with ⟨e2, he2, hr2⟩
        rcases mem_markExited _ _ _ he2 with ⟨e3, he3, hr3⟩
        have : ∃ e ∈ s, remnantOf e3 e := by
          split at he3
          · rcases mem_markExited _ _ _ he3 with ⟨e4, he4, hr4⟩
            exact ⟨e4, he4, hr4⟩
          · exact ⟨e3, he3, remnantOf_refl e3⟩
        rcases this with ⟨e, he, hr⟩
        exact ⟨e, he, remnantOf_trans (remnantOf_trans hr2 hr3) hr⟩
      · rw [hp_cons_inactive tOK s pid rest (by simpa using ha)] at h
        exact ih s e' h

lemma strData_append (s t : String) : (s ++ t).data = s.data ++ t.data := rfl

/-- The preferred path (ending in `tmp`) is never the fallback path
(ending in `Mantella`), whatever the documents and temp directories are. -/
lemma preferred_ne_fallback (docs t : String) :
    docs ++ preferredSubdir ≠ t ++ "Mantella" := by
  intro h
  have hd := congrArg (fun x : String => x.data.getLast?) h
  simp only [strData_append] at hd
  rw [List.getLast?_append_of_ne_nil _ (by decide),
    List.getLast?_append_of_ne_nil _ (by decide)] at hd
  simp [preferredSubdir] at hd

lemma setTempVars_createDir (env : WinEnv) (p : String) (tr : List Effect) (q : String)
    (h : Effect.createDir q ∈ (setTempVars env p tr).2) : Effect.createDir q ∈ tr := by
  by_cases h1 : env.setEnvOK "TEMP"
  · by_cases h2 : env.setEnvOK "TMP"
    · simp [setTempVars, h1, h2] at h; exact h
    · simp [setTempVars, h1, h2] at h; exact h
  · simp [setTempVars, h1] at h; exact h

lemma setTempVars_true_mem (env : WinEnv) (p : String) (tr : List Effect)
    (h : (setTempVars env p tr).1 = true) :
    Effect.setEnv "TEMP" p ∈ (setTempVars env p tr).2 ∧
      Effect.setEnv "TMP" p ∈ (setTempVars env p tr).2 := by
  by_cases h1 : env.setEnvOK "TEMP"
  · by_cases h2 : env.setEnvOK "TMP"
    · simp [setTempVars, h1, h2]
    · exfalso; simp [setTempVars, h1, h2] at h
  · exfalso; simp [setTempVars, h1] at h

lemma fallbackTempDir_createDir (env : WinEnv) (tr : List Effect) (q : String)
    (h : Effect.createDir q ∈ (fallbackTempDir env tr).2) :
    Effect.createDir q ∈ tr ∨ ∃ t, env.tempPath = some t ∧ q = t ++ "Mantella" := by
  rcases htp : env.tempPath with _ | t
  · simp [fallbackTempDir, htp] at h; exact Or.inl h
  · by_cases hc : env.createDirOK (t ++ "Mantella")
    · have h2 : Effect.createDir q ∈ tr ++ [Effect.createDir (t ++ "Mantella")] :=
        setTempVars_createDir env (t ++ "Mantella") _ q
          (by simpa [fallbackTempDir, htp, hc] using h)
      rcases List.mem_append.1 h2 with h3 | h3
      · exact Or.inl h3
      · simp at h3; exact Or.inr ⟨t, rfl, h3⟩
    · simp [fallbackTempDir, htp, hc] at h
      rcases h with h3 | h3
      · exact Or.inl h3
      · exact Or.inr ⟨t, rfl, h3⟩

lemma fallbackTempDir_true (env : WinEnv) (tr : List Effect)
    (h : (fallbackTempDir env tr).1 = true) :
    ∃ t, env.tempPath = some t ∧
      Effect.setEnv "TEMP" (t ++ "Mantella") ∈ (fallbackTempDir env tr).2 ∧
      Effect.setEnv "TMP" (t ++ "Mantella") ∈ (fallbackTempDir env tr).2 := by
  rcases htp : env.tempPath with _ | t
  · exfalso; simp [fallbackTempDir, htp] at h
  · by_cases hc : env.createDirOK (t ++ "Mantella")
    · refine ⟨t, rfl, ?_⟩
      have h2 := setTempVars_true_mem env (t ++ "Mantella")
        (tr ++ [Effect.createDir (t ++ "Mantella")])
        (by simpa [fallbackTempDir, htp, hc] using h)
      simpa [fallbackTempDir, htp, hc] using h2
    · exfalso; simp [fallbackTempDir, htp, hc] at h

/-! ### Concrete oracle environments used by witnesses and counterexamples -/

/-- A fully cooperative OS oracle. -/
def wEnvAllOK : WinEnv :=
  { documentsPath := some "C:\\Users\\u\\Documents"
    createDirOK := fun _ => true
    tempPath := some "C:\\Temp\\"
    setEnvOK := fun _ => true }

/-- A fully cooperative launch oracle. -/
def launchEnvAllOK : LaunchEnv :=
  { winEnv := wEnvAllOK
    modulePath := ["C:", "Game", "Data", "SKSE", "Plugins", "MantellaLauncher.dll"]
    terminateOK := fun _ => true
    createProcessOK := true
    newPid := 99 }

/-- An oracle on which every `create_directories` call fails. -/
def wEnvNoCreate : WinEnv :=
  { documentsPath := some "C:\\Users\\u\\Documents"
    createDirOK := fun _ => false
    tempPath := some "C:\\Temp\\"
    setEnvOK := fun _ => true }

/-- An oracle whose documents folder lives under OneDrive. -/
def wEnvOneDrive : WinEnv :=
  { documentsPath := some "C:\\Users\\u\\OneDrive\\Documents"
    createDirOK := fun _ => true
    tempPath := some "C:\\Temp\\"
    setEnvOK := fun _ => true }

/-- A launch oracle on which the documents-folder query fails. -/
def launchEnvNoDocs : LaunchEnv :=
  { winEnv :=
      { documentsPath := none
        createDirOK := fun _ => true
        tempPath := some "C:\\Temp\\"
        setEnvOK := fun _ => true }
    modulePath := ["C:", "Game", "Data", "SKSE", "Plugins", "MantellaLauncher.dll"]
    terminateOK := fun _ => true
    createProcessOK := true
    newPid := 99 }

/-! ### Claim theorems -/

/-- C3: in every run of the storage path resolver in which the documents path
contains the cloud-sync marker `"OneDrive"`, every directory-creation attempt
targets the fallback path `<GetTempPath()>Mantella`, the preferred path
`<Documents>\My Games\Mantella\data\tmp` is never attempted, and whenever the
resolver succeeds it publishes the fallback path in `TEMP` and `TMP`. -/
theorem cloud_marker_forces_fallback (env : WinEnv) (docs : String)
    (hd : env.documentsPath = some docs) (hm : containsOneDrive docs = true) :
    (∀ p, Effect.createDir p ∈ (SetEnvironmentTempPath env).2 →
      ∃ t, env.tempPath = some t ∧ p = t ++ "Mantella") ∧
    Effect.createDir (docs ++ preferredSubdir) ∉ (SetEnvironmentTempPath env).2 ∧
    ((SetEnvironmentTempPath env).1 = true →
      ∃ t, env.tempPath = some t ∧
        Effect.setEnv "TEMP" (t ++ "Mantella") ∈ (SetEnvironmentTempPath env).2 ∧
        Effect.setEnv "TMP" (t ++ "Mantella") ∈ (SetEnvironmentTempPath env).2) := by
  have hset : SetEnvironmentTempPath env = fallbackTempDir env [] := by
    simp [SetEnvironmentTempPath, hd, hm]
  rw [hset]
  refine ⟨?_, ?_, ?_⟩
  · intro p hp
    rcases fallbackTempDir_createDir env [] p hp with h | h
    · simp at h
    · exact h
  · intro hmem
    rcases fallbackTempDir_createDir env [] _ hmem with h | h
    · simp at h
    · rcases h with ⟨t, _, hq⟩
      exact preferred_ne_fallback docs t hq
  · exact fallbackTempDir_true env []

/-- Witness for C3 at a concrete OneDrive-synced oracle. -/
theorem cloud_marker_forces_fallback_witness :
    (∀ p, Effect.createDir p ∈ (SetEnvironmentTempPath wEnvOneDrive).2 →
      ∃ t, wEnvOneDrive.tempPath = some t ∧ p = t ++ "Mantella") ∧
    Effect.createDir ("C:\\Users\\u\\OneDrive\\Documents" ++ preferredSubdir) ∉
      (SetEnvironmentTempPath wEnvOneDrive).2 ∧
    ((SetEnvironmentTempPath wEnvOneDrive).1 = true →
      ∃ t, wEnvOneDrive.tempPath = some t ∧
        Effect.setEnv "TEMP" (t ++ "Mantella") ∈ (SetEnvironmentTempPath wEnvOneDrive).2 ∧
        Effect.setEnv "TMP" (t ++ "Mantella") ∈ (SetEnvironmentTempPath wEnvOneDrive).2) :=
  cloud_marker_forces_fallback wEnvOneDrive "C:\\Users\\u\\OneDrive\\Documents" rfl (by decide)

/-- C7: if the documents folder is available and not cloud-synced, creating
the preferred directory fails, and creating the fallback directory also
fails, then the resolver reports failure and mutates neither `TEMP` nor
`TMP`. -/
theorem both_create_fail_no_env_mutation (env : WinEnv) (docs t : String)
    (hd : env.documentsPath = some docs) (hm : containsOneDrive docs = false)
    (hc1 : env.createDirOK (docs ++ preferredSubdir) = false)
    (ht : env.tempPath = some t)
    (hc2 : env.createDirOK (t ++ "Mantella") = false) :
    (SetEnvironmentTempPath env).1 = false ∧
    ∀ v q, Effect.setEnv v q ∉ (SetEnvironmentTempPath env).2 := by
  have hset : SetEnvironmentTempPath env =
      (false, [Effect.createDir (docs ++ preferredSubdir),
        Effect.log "Failed to create directory path.",
        Effect.log "Falling back to system temporary directory.",
        Effect.createDir (t ++ "Mantella"),
        Effect.log "Failed to create fallback directory."]) := by
    simp [SetEnvironmentTempPath, hd, hm, hc1, fallbackTempDir, ht, hc2]
  rw [hset]
  exact ⟨rfl, by intro v q hq; simp at hq⟩

/-- Witness for C7 at a concrete oracle on which all creations fail. -/
theorem both_create_fail_no_env_mutation_witness :
    (SetEnvironmentTempPath wEnvNoCreate).1 = false ∧
    ∀ v q, Effect.setEnv v q ∉ (SetEnvironmentTempPath wEnvNoCreate).2 :=
  both_create_fail_no_env_mutation wEnvNoCreate "C:\\Users\\u\\Documents" "C:\\Temp\\"
    rfl (by decide) rfl rfl rfl

/-- C8: if the documents-folder query fails, the launch pass returns failure
and never attempts to spawn the companion process. -/
theorem docs_query_fail_no_spawn (env : LaunchEnv) (s : List ProcEntry)
    (hd : env.winEnv.documentsPath = none) :
    (LaunchMantellaExe env s).1 = false ∧
    ∀ eff ∈ (LaunchMantellaExe env s).2.1, eff.isSpawn = false := by
  have h0 : SetEnvironmentTempPath env.winEnv =
      (false, [Effect.log "Failed to get Documents folder path."]) := by
    simp [SetEnvironmentTempPath, hd]
  have hL : LaunchMantellaExe env s =
      (false, [Effect.log "Failed to get Documents folder path."], s) := by
    simp [LaunchMantellaExe, h0]
  rw [hL]
  refine ⟨rfl, ?_⟩
  intro eff heff
  simp at heff
  simp [heff, Effect.isSpawn]

/-- Witness for C8 at a concrete oracle whose documents query fails. -/
theorem docs_query_fail_no_spawn_witness :
    (LaunchMantellaExe launchEnvNoDocs []).1 = false ∧
    ∀ eff ∈ (LaunchMantellaExe launchEnvNoDocs []).2.1, eff.isSpawn = false :=
  docs_query_fail_no_spawn launchEnvNoDocs [] rfl

/-- C4: enumeration matching is exact, case-insensitive filename equality:
an examined entry whose `stricmp` against `"Mantella.exe"` is non-zero
contributes nothing; `"NotMantella.exe"` (a strict superstring) never
matches; `"MANTELLA.EXE"` always matches; and the match predicate holds
exactly when the lowercased character sequences coincide. -/
theorem match_exact_case_insensitive (first e : ProcEntry) (rest : List ProcEntry)
    (p q : Nat) (a o : Bool) :
    (striEq e.name mantellaExe = false →
      LocateExistingMantellaProcesses (first :: e :: rest) =
        LocateExistingMantellaProcesses (first :: rest)) ∧
    LocateExistingMantellaProcesses
        (first :: { name := "NotMantella.exe", pid := p, active := a, openable := o } :: rest) =
      LocateExistingMantellaProcesses (first :: rest) ∧
    LocateExistingMantellaProcesses
        (first :: { name := "MANTELLA.EXE", pid := q, active := a, openable := true } :: rest) =
      some q :: LocateExistingMantellaProcesses (first :: rest) ∧
    (striEq e.name mantellaExe = true ↔
      e.name.data.map Char.toLower = mantellaExe.data.map Char.toLower) := by
  refine ⟨?_, ?_, ?_, ?_⟩
  · intro h
    simp [LocateExistingMantellaProcesses, h]
  · simp [LocateExistingMantellaProcesses,
      show striEq "NotMantella.exe" mantellaExe = false by decide]
  · simp [LocateExistingMantellaProcesses,
      show striEq "MANTELLA.EXE" mantellaExe = true by decide]
  · simp [striEq]

/-- Witness for C4 at concrete entries. -/
theorem match_exact_case_insensitive_witness :
    (striEq (ProcEntry.name { name := "Skyrim.exe", pid := 2, active := true, openable := true })
        mantellaExe = false →
      LocateExistingMantellaProcesses
          [{ name := "x", pid := 0, active := true, openable := true },
           { name := "Skyrim.exe", pid := 2, active := true, openable := true }] =
        LocateExistingMantellaProcesses
          [{ name := "x", pid := 0, active := true, openable := true }]) ∧
    LocateExistingMantellaProcesses
        [{ name := "x", pid := 0, active := true, openable := true },
         { name := "NotMantella.exe", pid := 3, active := true, openable := true }] =
      LocateExistingMantellaProcesses
        [{ name := "x", pid := 0, active := true, openable := true }] ∧
    LocateExistingMantellaProcesses
        [{ name := "x", pid := 0, active := true, openable := true },
         { name := "MANTELLA.EXE", pid := 4, active := true, openable := true }] =
      some 4 :: LocateExistingMantellaProcesses
        [{ name := "x", pid := 0, active := true, openable := true }] ∧
    (striEq (ProcEntry.name { name := "Skyrim.exe", pid := 2, active := true, openable := true })
        mantellaExe = true ↔
      (ProcEntry.name { name := "Skyrim.exe", pid := 2, active := true, openable := true }).data.map
          Char.toLower = mantellaExe.data.map Char.toLower) :=
  match_exact_case_insensitive
    { name := "x", pid := 0, active := true, openable := true }
    { name := "Skyrim.exe", pid := 2, active := true, openable := true }
    [] 3 4 true true

/-- C5 counterexample: a matching, openable companion process that happens to
be the snapshot's FIRST entry yields no reference at all — the enumeration
result is empty although the snapshot contains a matching process, because
the `Process32First` entry is never examined by the loop. -/
theorem enumeration_misses_first_entry :
    striEq (ProcEntry.name { name := "Mantella.exe", pid := 5, active := true, openable := true })
        mantellaExe = true ∧
    LocateExistingMantellaProcesses
      [{ name := "Mantella.exe", pid := 5, active := true, openable := true }] = [] :=
  ⟨by decide, rfl⟩

/-- C5 (amended): the enumeration examines every snapshot entry after the
first (the `Process32First` entry is skipped before the loop body runs):
every matching entry of the tail contributes one element to the result — a
query+terminate-capable handle when `OpenProcess` succeeds, a NULL reference
otherwise. -/
theorem enumeration_covers_tail (s : List ProcEntry) (e : ProcEntry)
    (h1 : e ∈ s.drop 1) (h2 : striEq e.name mantellaExe = true) :
    (e.openable = true → some e.pid ∈ LocateExistingMantellaProcesses s) ∧
    (e.openable = false → none ∈ LocateExistingMantellaProcesses s) := by
  match s with
  | [] => simp at h1
  | first :: rest =>
    simp only [List.drop_one, List.tail_cons] at h1
    simp only [LocateExistingMantellaProcesses]
    constructor
    · intro ho
      exact List.mem_map.2 ⟨e, List.mem_filter.2 ⟨h1, h2⟩, by simp [ho]⟩
    · intro ho
      exact List.mem_map.2 ⟨e, List.mem_filter.2 ⟨h1, h2⟩, by simp [ho]⟩

/-- Witness for C5's amended theorem at a concrete snapshot. -/
theorem enumeration_covers_tail_witness :
    (ProcEntry.openable { name := "MANTELLA.EXE", pid := 6, active := false, openable := true } = true →
      some (ProcEntry.pid { name := "MANTELLA.EXE", pid := 6, active := false, openable := true }) ∈
        LocateExistingMantellaProcesses
          [{ name := "[System Process]", pid := 0, active := true, openable := false },
           { name := "MANTELLA.EXE", pid := 6, active := false, openable := true }]) ∧
    (ProcEntry.openable { name := "MANTELLA.EXE", pid := 6, active := false, openable := true } = false →
      none ∈ LocateExistingMantellaProcesses
          [{ name := "[System Process]", pid := 0, active := true, openable := false },
           { name := "MANTELLA.EXE", pid := 6, active := false, openable := true }]) :=
  enumeration_covers_tail
    [{ name := "[System Process]", pid := 0, active := true, openable := false },
     { name := "MANTELLA.EXE", pid := 6, active := false, openable := true }]
    { name := "MANTELLA.EXE", pid := 6, active := false, openable := true }
    (by decide) (by decide)

/-- A snapshot whose only matching entry cannot be opened. -/
def snapshotUnopenable : List ProcEntry :=
  [{ name := "Explorer.exe", pid := 1, active := true, openable := true },
   { name := "Mantella.exe", pid := 5, active := true, openable := false }]

/-- C6 counterexample: a matching entry whose `OpenProcess` fails is NOT a
non-match for every purpose: it contributes a NULL element to the enumeration
result, and that element makes the data-loaded instance-found check see a
non-empty result, so the trigger declines to launch (no spawn), whereas the
same pass without that entry does spawn. -/
theorem unopenable_match_affects_decision :
    LocateExistingMantellaProcesses snapshotUnopenable = [none] ∧
    (OnDataLoaded launchEnvAllOK snapshotUnopenable).1 =
      [Effect.closeHandle none,
       Effect.log "Found running instance of Mantella.exe. Not starting a new one. You can still restart it from the MCM."] ∧
    (∀ eff ∈ (OnDataLoaded launchEnvAllOK snapshotUnopenable).1, eff.isSpawn = false) ∧
    ∃ eff ∈ (OnDataLoaded launchEnvAllOK
        [{ name := "Explorer.exe", pid := 1, active := true, openable := true }]).1,
      eff.isSpawn = true := by
  decide

/-- C6 (amended): a matching entry that cannot be opened contributes a NULL
handle to the enumeration result (so it does count for the data-loaded
instance-found check); the scan does not abort — the remaining entries are
still processed — and the launch pass's terminate loop skips a NULL handle
with no effect at all. -/
theorem unopenable_match_null_handle (first e : ProcEntry) (rest : List ProcEntry)
    (tOK : Nat → Bool) (s : List ProcEntry)
    (h2 : striEq e.name mantellaExe = true) (h3 : e.openable = false) :
    LocateExistingMantellaProcesses (first :: e :: rest) =
      none :: LocateExistingMantellaProcesses (first :: rest) ∧
    handleProcesses tOK s (none :: LocateExistingMantellaProcesses (first :: rest)) =
      handleProcesses tOK s (LocateExistingMantellaProcesses (first :: rest)) := by
  refine ⟨?_, rfl⟩
  simp [LocateExistingMantellaProcesses, h2, h3]

/-- Witness for C6's amended theorem at a concrete snapshot. -/
theorem unopenable_match_null_handle_witness :
    LocateExistingMantellaProcesses
        ({ name := "Explorer.exe", pid := 1, active := true, openable := true } ::
         { name := "Mantella.exe", pid := 5, active := true, openable := false } ::
         [{ name := "MANTELLA.EXE", pid := 6, active := true, openable := true }]) =
      none :: LocateExistingMantellaProcesses
        ({ name := "Explorer.exe", pid := 1, active := true, openable := true } ::
         [{ name := "MANTELLA.EXE", pid := 6, active := true, openable := true }]) ∧
    handleProcesses (fun _ => true) []
        (none :: LocateExistingMantellaProcesses
          ({ name := "Explorer.exe", pid := 1, active := true, openable := true } ::
           [{ name := "MANTELLA.EXE", pid := 6, active := true, openable := true }])) =
      handleProcesses (fun _ => true) []
        (LocateExistingMantellaProcesses
          ({ name := "Explorer.exe", pid := 1, active := true, openable := true } ::
           [{ name := "MANTELLA.EXE", pid := 6, active := true, openable := true }])) :=
  unopenable_match_null_handle
    { name := "Explorer.exe", pid := 1, active := true, openable := true }
    { name := "Mantella.exe", pid := 5, active := true, openable := false }
    [{ name := "MANTELLA.EXE", pid := 6, active := true, openable := true }]
    (fun _ => true) [] (by decide) (by decide)

/-- C10: on the data-loaded trigger, whenever the enumeration result is
non-empty (NULL entries included), the pass leaves the process table
unchanged, terminates nothing, spawns nothing, sets no environment variable,
creates no directory, and its trace is exactly one `CloseHandle` per
acquired entry followed by a single log line. -/
theorem dataloaded_nonempty_frame (env : LaunchEnv) (s : List ProcEntry)
    (h : LocateExistingMantellaProcesses s ≠ []) :
    (OnDataLoaded env s).2 = s ∧
    (OnDataLoaded env s).1 =
      (LocateExistingMantellaProcesses s).map Effect.closeHandle ++
        [Effect.log "Found running instance of Mantella.exe. Not starting a new one. You can still restart it from the MCM."] ∧
    (∀ eff ∈ (OnDataLoaded env s).1,
      eff.isTerminate = false ∧ eff.isSpawn = false ∧ eff.isSetEnv = false ∧
        eff.isCreateDir = false) ∧
    ((OnDataLoaded env s).1.filter Effect.isLog).length = 1 := by
  have hlen : ((LocateExistingMantellaProcesses s).length == 0) = false := by
    rw [beq_eq_false_iff_ne]
    simpa [List.length_eq_zero] using h
  have hO : OnDataLoaded env s =
      ((LocateExistingMantellaProcesses s).map Effect.closeHandle ++
        [Effect.log "Found running instance of Mantella.exe. Not starting a new one. You can still restart it from the MCM."],
        s) := by
    simp [OnDataLoaded, hlen]
  rw [hO]
  refine ⟨rfl, rfl, ?_, ?_⟩
  · intro eff heff
    rcases List.mem_append.1 heff with hm | hm
    · rcases List.mem_map.1 hm with ⟨x, _, rfl⟩
      exact ⟨rfl, rfl, rfl, rfl⟩
    · simp at hm
      subst hm
      exact ⟨rfl, rfl, rfl, rfl⟩
  · rw [List.filter_append]
    have hnil : ((LocateExistingMantellaProcesses s).map Effect.closeHandle).filter
        Effect.isLog = [] := by
      rw [List.filter_eq_nil_iff]
      intro a ha
      rcases List.mem_map.1 ha with ⟨x, _, rfl⟩
      simp [Effect.isLog]
    rw [hnil]
    rfl

/-- Witness for C10 at a concrete snapshot with one matching tail entry. -/
theorem dataloaded_nonempty_frame_witness :
    (OnDataLoaded launchEnvAllOK snapshotUnopenable).2 = snapshotUnopenable ∧
    (OnDataLoaded launchEnvAllOK snapshotUnopenable).1 =
      (LocateExistingMantellaProcesses snapshotUnopenable).map Effect.closeHandle ++
        [Effect.log "Found running instance of Mantella.exe. Not starting a new one. You can still restart it from the MCM."] ∧
    (∀ eff ∈ (OnDataLoaded launchEnvAllOK snapshotUnopenable).1,
      eff.isTerminate = false ∧ eff.isSpawn = false ∧ eff.isSetEnv = false ∧
        eff.isCreateDir = false) ∧
    ((OnDataLoaded launchEnvAllOK snapshotUnopenable).1.filter Effect.isLog).length = 1 :=
  dataloaded_nonempty_frame launchEnvAllOK snapshotUnopenable (by decide)

lemma filter_isSpawn_envTrace (env : WinEnv) :
    (SetEnvironmentTempPath env).2.filter Effect.isSpawn = [] := by
  rw [List.filter_eq_nil_iff]
  intro a ha
  simp [envPhase_not_spawn (setEnvTempPath_envPhase env a ha)]

lemma filter_isSpawn_hpTrace (tOK : Nat → Bool) (s : List ProcEntry)
    (hs : List (Option Nat)) :
    (handleProcesses tOK s hs).2.filter Effect.isSpawn = [] := by
  rw [List.filter_eq_nil_iff]
  intro a ha
  simp [hp_spawnFree tOK hs s a ha]

/-- The executable path as the spec's words describe it: the directory TWO
levels above this module's binary, joined with the fixed subfolder name and
the companion's filename.  Stated only for comparison with what the code
actually does. -/
def specExePathTwoLevelsUp (modulePath : List String) : String :=
  joinBS (GetModuleDirectoryBase modulePath 2) ++ "\\MantellaSoftware\\Mantella.exe"

/-- C9 counterexample: at a concrete module path the pass spawns using the
directory ONE `parent_path` above the module binary (its containing
directory), which differs from the spec's "two levels above" path. -/
theorem spawn_not_two_levels_up :
    (LaunchMantellaExe launchEnvAllOK []).2.1.filter Effect.isSpawn =
      [Effect.spawn "C:\\Game\\Data\\SKSE\\Plugins\\MantellaSoftware\\Mantella.exe --integrated"
        "C:\\Game\\Data\\SKSE\\Plugins" CREATE_NEW_CONSOLE SW_SHOWMINNOACTIVE] ∧
    specExePathTwoLevelsUp launchEnvAllOK.modulePath =
      "C:\\Game\\Data\\SKSE\\MantellaSoftware\\Mantella.exe" ∧
    ("C:\\Game\\Data\\SKSE\\Plugins\\MantellaSoftware\\Mantella.exe --integrated" : String) ≠
      specExePathTwoLevelsUp launchEnvAllOK.modulePath ++ " --integrated" := by
  refine ⟨by decide, by decide, by decide⟩

/-- C9 (amended): whenever the resolver step succeeds, the launch pass makes
exactly one `CreateProcess` call; its command line is the module binary's
containing directory (ONE `parent_path` above the binary) joined with the
fixed subfolder `MantellaSoftware` and the companion filename, followed by
exactly one flag `--integrated`; the working directory is that same
containing directory, with a new console and minimized-no-activate
visibility. -/
theorem spawn_uses_module_dir (env : LaunchEnv) (s : List ProcEntry)
    (hEnv : (SetEnvironmentTempPath env.winEnv).1 = true) :
    (LaunchMantellaExe env s).2.1.filter Effect.isSpawn =
      [Effect.spawn
        (joinBS env.modulePath.dropLast ++ "\\MantellaSoftware\\Mantella.exe" ++ " --integrated")
        (joinBS env.modulePath.dropLast) CREATE_NEW_CONSOLE SW_SHOWMINNOACTIVE] := by
  by_cases hC : env.createProcessOK <;>
    simp [LaunchMantellaExe, hEnv, hC, List.filter_append, filter_isSpawn_envTrace,
      filter_isSpawn_hpTrace, Effect.isSpawn, exePathOf, moduleDirOf,
      GetModuleDirectoryBase, parentPath]

/-- Witness for C9's amended theorem at a concrete launch oracle. -/
theorem spawn_uses_module_dir_witness :
    (LaunchMantellaExe launchEnvAllOK []).2.1.filter Effect.isSpawn =
      [Effect.spawn
        (joinBS launchEnvAllOK.modulePath.dropLast ++ "\\MantellaSoftware\\Mantella.exe" ++
          " --integrated")
        (joinBS launchEnvAllOK.modulePath.dropLast) CREATE_NEW_CONSOLE SW_SHOWMINNOACTIVE] :=
  spawn_uses_module_dir launchEnvAllOK [] (by decide)

/-- C2: in a launch pass whose enumeration finds exactly two matched
instances — `a` still active and `b` already exited, both openable — the
pass terminates `a` and waits on it with timeout `none` (INFINITE) before
closing its handle, merely closes `b`'s handle without terminating it, and
then makes exactly one `CreateProcess` call; moreover the pass makes exactly
one `CreateProcess` call on every snapshot, however many instances were
found. -/
theorem two_instances_one_active (env : LaunchEnv) (x a b : ProcEntry)
    (hEnv : (SetEnvironmentTempPath env.winEnv).1 = true)
    (hCP : env.createProcessOK = true)
    (hT : env.terminateOK a.pid = true)
    (ha1 : striEq a.name mantellaExe = true) (ha2 : a.openable = true)
    (ha3 : a.active = true)
    (hb1 : striEq b.name mantellaExe = true) (hb2 : b.openable = true)
    (hb3 : b.active = false)
    (hx : x.pid ≠ b.pid) :
    (LaunchMantellaExe env [x, a, b]).1 = true ∧
    (LaunchMantellaExe env [x, a, b]).2.1 =
      (SetEnvironmentTempPath env.winEnv).2 ++
        Effect.log ("Attempting to launch: " ++ exePathOf env) ::
        Effect.terminate a.pid ::
        Effect.wait a.pid none ::
        Effect.log "Existing Mantella.exe process terminated." ::
        Effect.closeHandle (some a.pid) ::
        Effect.closeHandle (some b.pid) ::
        [Effect.spawn (exePathOf env ++ " --integrated") (moduleDirOf env)
          CREATE_NEW_CONSOLE SW_SHOWMINNOACTIVE,
         Effect.setConsoleTitle "Mantella", Effect.closeThreadHandle] ∧
    ∀ s2 : List ProcEntry,
      ((LaunchMantellaExe env s2).2.1.filter Effect.isSpawn).length = 1 := by
  have hx' : (x.pid == b.pid) = false := by simpa using hx
  have hloc : LocateExistingMantellaProcesses [x, a, b] = [some a.pid, some b.pid] := by
    simp [LocateExistingMantellaProcesses, ha1, hb1, ha2, hb2]
  have hact : isActive [x, a, b] a.pid = true := by
    simp [isActive, ha3]
  have hinact : isActive (markExited (markExited [x, a, b] a.pid) a.pid) b.pid = false := by
    by_cases hxa : x.pid = a.pid <;> by_cases hba : b.pid = a.pid <;>
      simp [markExited, isActive, hb3, hx', hxa, hba]
  have hhp : handleProcesses env.terminateOK [x, a, b] [some a.pid, some b.pid] =
      (markExited (markExited [x, a, b] a.pid) a.pid,
       [Effect.terminate a.pid, Effect.wait a.pid none,
        Effect.log "Existing Mantella.exe process terminated.",
        Effect.closeHandle (some a.pid), Effect.closeHandle (some b.pid)]) := by
    rw [hp_cons_active env.terminateOK [x, a, b] a.pid [some b.pid] hact, hT]
    simp only [if_pos]
    rw [hp_cons_inactive env.terminateOK _ b.pid [] hinact, hp_nil]
    simp
  refine ⟨?_, ?_, ?_⟩
  · simp [LaunchMantellaExe, hEnv, hCP]
  · simp [LaunchMantellaExe, hEnv, hCP, hloc, hhp]
  · intro s2
    by_cases hC2 : env.createProcessOK <;>
      simp [LaunchMantellaExe, hEnv, hC2, List.filter_append, filter_isSpawn_envTrace,
        filter_isSpawn_hpTrace, Effect.isSpawn]

/-- Witness for C2 at a concrete snapshot with one active and one exited
instance behind a skipped first entry. -/
theorem two_instances_one_active_witness :
    (LaunchMantellaExe launchEnvAllOK
      [{ name := "[System Process]", pid := 0, active := true, openable := false },
       { name := "Mantella.exe", pid := 5, active := true, openable := true },
       { name := "MANTELLA.EXE", pid := 6, active := false, openable := true }]).1 = true ∧
    (LaunchMantellaExe launchEnvAllOK
      [{ name := "[System Process]", pid := 0, active := true, openable := false },
       { name := "Mantella.exe", pid := 5, active := true, openable := true },
       { name := "MANTELLA.EXE", pid := 6, active := false, openable := true }]).2.1 =
      (SetEnvironmentTempPath launchEnvAllOK.winEnv).2 ++
        Effect.log ("Attempting to launch: " ++ exePathOf launchEnvAllOK) ::
        Effect.terminate 5 ::
        Effect.wait 5 none ::
        Effect.log "Existing Mantella.exe process terminated." ::
        Effect.closeHandle (some 5) ::
        Effect.closeHandle (some 6) ::
        [Effect.spawn (exePathOf launchEnvAllOK ++ " --integrated") (moduleDirOf launchEnvAllOK)
          CREATE_NEW_CONSOLE SW_SHOWMINNOACTIVE,
         Effect.setConsoleTitle "Mantella", Effect.closeThreadHandle] ∧
    ∀ s2 : List ProcEntry,
      ((LaunchMantellaExe launchEnvAllOK s2).2.1.filter Effect.isSpawn).length = 1 :=
  two_instances_one_active launchEnvAllOK
    { name := "[System Process]", pid := 0, active := true, openable := false }
    { name := "Mantella.exe", pid := 5, active := true, openable := true }
    { name := "MANTELLA.EXE", pid := 6, active := false, openable := true }
    (by decide) rfl rfl (by decide) rfl rfl (by decide) rfl rfl (by decide)

/-- A snapshot with one matching active instance in the never-examined first
slot and one matching active instance that cannot be opened. -/
def snapshotEvasive : List ProcEntry :=
  [{ name := "Mantella.exe", pid := 5, active := true, openable := true },
   { name := "Mantella.exe", pid := 6, active := true, openable := false }]

/-- C1 counterexample: a supervision pass that returns true can leave THREE
matching instances active — one that sat in the snapshot's first slot (never
examined by the enumeration loop), one whose `OpenProcess` failed (NULL
handle, skipped by the terminate loop), and the newly spawned one. -/
theorem launch_leaves_multiple_active :
    (LaunchMantellaExe launchEnvAllOK snapshotEvasive).1 = true ∧
    ((LaunchMantellaExe launchEnvAllOK snapshotEvasive).2.2.filter
      (fun e => striEq e.name mantellaExe && e.active)).length = 3 := by
  refine ⟨by decide, by decide⟩

/-- C1 (amended): after a launch pass that returns true, every matching
active row of the resulting process table is either the newly spawned
instance or descends from a snapshot row the pass could not handle — the
snapshot's first entry (never examined by the enumeration) or a matching
entry whose `OpenProcess` failed; every matched instance with a usable
handle that was found active has been terminated.  Moreover the trace
contains exactly one spawn, and no termination occurs after it. -/
theorem launch_success_active_provenance (env : LaunchEnv) (s : List ProcEntry)
    (h : (LaunchMantellaExe env s).1 = true) :
    (∀ e ∈ (LaunchMantellaExe env s).2.2,
      striEq e.name mantellaExe = true → e.active = true →
      e = newInstance env ∨
      ∃ e0 ∈ s, e0.pid = e.pid ∧ striEq e0.name mantellaExe = true ∧ e0.active = true ∧
        (e0 ∈ s.take 1 ∨ e0.openable = false)) ∧
    ∃ pre suf, (LaunchMantellaExe env s).2.1 =
        pre ++ Effect.spawn (exePathOf env ++ " --integrated") (moduleDirOf env)
          CREATE_NEW_CONSOLE SW_SHOWMINNOACTIVE :: suf ∧
      (∀ q ∈ pre, q.isSpawn = false) ∧
      (∀ q ∈ suf, q.isSpawn = false ∧ q.isTerminate = false) := by
  by_cases hEnv : (SetEnvironmentTempPath env.winEnv).1 = true
  case neg =>
    exfalso
    have hEnv' : (SetEnvironmentTempPath env.winEnv).1 = false := by
      simpa using hEnv
    simp [LaunchMantellaExe, hEnv'] at h
  by_cases hCP : env.createProcessOK = true
  case neg =>
    exfalso
    have hCP' : env.createProcessOK = false := by simpa using hCP
    simp [LaunchMantellaExe, hEnv, hCP'] at h
  have h22 : (LaunchMantellaExe env s).2.2 =
      (handleProcesses env.terminateOK s (LocateExistingMantellaProcesses s)).1 ++
        [newInstance env] := by
    simp [LaunchMantellaExe, hEnv, hCP]
  have h21 : (LaunchMantellaExe env s).2.1 =
      ((SetEnvironmentTempPath env.winEnv).2 ++
        Effect.log ("Attempting to launch: " ++ exePathOf env) ::
          (handleProcesses env.terminateOK s (LocateExistingMantellaProcesses s)).2) ++
        Effect.spawn (exePathOf env ++ " --integrated") (moduleDirOf env)
          CREATE_NEW_CONSOLE SW_SHOWMINNOACTIVE ::
          [Effect.setConsoleTitle "Mantella", Effect.closeThreadHandle] := by
    simp [LaunchMantellaExe, hEnv, hCP]
  constructor
  · intro e he hname hact
    rw [h22] at he
    rcases List.mem_append.1 he with he1 | he1
    · rcases hp_remnant env.terminateOK (LocateExistingMantellaProcesses s) s e he1 with
        ⟨e0, he0, hr⟩
      have hname0 : striEq e0.name mantellaExe = true := by
        rw [← hr.2.1]; exact hname
      have hact0 : e0.active = true := hr.2.2.2 hact
      right
      refine ⟨e0, he0, hr.1.symm, hname0, hact0, ?_⟩
      rcases s with _ | ⟨hd, tl⟩
      · simp at he0
      · rcases List.mem_cons.1 he0 with rfl | htl
        · exact Or.inl (by simp)
        · by_cases ho : e0.openable = true
          · exfalso
            have hmem : some e0.pid ∈ LocateExistingMantellaProcesses (hd :: tl) := by
              simp only [LocateExistingMantellaProcesses]
              exact List.mem_map.2 ⟨e0, List.mem_filter.2 ⟨htl, hname0⟩, by simp [ho]⟩
            have hcl := hp_clears env.terminateOK
              (LocateExistingMantellaProcesses (hd :: tl)) (hd :: tl) e0.pid hmem
            have hyes : isActive
                (handleProcesses env.terminateOK (hd :: tl)
                  (LocateExistingMantellaProcesses (hd :: tl))).1 e0.pid = true :=
              List.any_eq_true.2 ⟨e, he1, by simp [hr.1, hact]⟩
            rw [hcl] at hyes
            exact Bool.false_ne_true hyes
          · exact Or.inr (by simpa using ho)
    · simp at he1
      exact Or.inl he1
  · refine ⟨(SetEnvironmentTempPath env.winEnv).2 ++
      Effect.log ("Attempting to launch: " ++ exePathOf env) ::
        (handleProcesses env.terminateOK s (LocateExistingMantellaProcesses s)).2,
      [Effect.setConsoleTitle "Mantella", Effect.closeThreadHandle], h21, ?_, ?_⟩
    · intro q hq
      rcases List.mem_append.1 hq with h1 | h1
      · exact envPhase_not_spawn (setEnvTempPath_envPhase _ _ h1)
      · rcases List.mem_cons.1 h1 with rfl | h2
        · rfl
        · exact hp_spawnFree _ _ _ _ h2
    · intro q hq
      simp at hq
      rcases hq with rfl | rfl
      · exact ⟨rfl, rfl⟩
      · exact ⟨rfl, rfl⟩

/-- Witness for C1's amended theorem at a concrete successful pass. -/
theorem launch_success_active_provenance_witness :
    (∀ e ∈ (LaunchMantellaExe launchEnvAllOK snapshotEvasive).2.2,
      striEq e.name mantellaExe = true → e.active = true →
      e = newInstance launchEnvAllOK ∨
      ∃ e0 ∈ snapshotEvasive, e0.pid = e.pid ∧ striEq e0.name mantellaExe = true ∧
        e0.active = true ∧ (e0 ∈ snapshotEvasive.take 1 ∨ e0.openable = false)) ∧
    ∃ pre suf, (LaunchMantellaExe launchEnvAllOK snapshotEvasive).2.1 =
        pre ++ Effect.spawn (exePathOf launchEnvAllOK ++ " --integrated")
          (moduleDirOf launchEnvAllOK) CREATE_NEW_CONSOLE SW_SHOWMINNOACTIVE :: suf ∧
      (∀ q ∈ pre, q.isSpawn = false) ∧
      (∀ q ∈ suf, q.isSpawn = false ∧ q.isTerminate = false) :=
  launch_success_active_provenance launchEnvAllOK snapshotEvasive (by decide)

end Mantella
